import Mathlib

/-!
Verification of the user/auth service (`src/user_service/app/main.py`).

The development shallowly embeds the service's authentication core:
JWT issuance/verification (`create_access_token`, `get_current_user`),
bcrypt password hashing (`hash_password`, `verify_password`), and the
user CRUD handlers (`register_user`, `login_for_access_token`,
`read_auth_user_profile`, `update_auth_user_profile`, `get_user_from_db`,
`get_user`, `delete_user`).

Time is modelled in whole seconds (`Nat`).  The user store
(`session.exec(select(User))...`) is modelled as a `List User` and every
stateful handler returns the outcome together with the resulting store.
External libraries (PyJWT, passlib bcrypt) are given faithful abstract
models; the record models from `app/models/user_model.py` are modelled
from the spec where noted, since that file is not part of the sources.
-/

namespace UserService

/-- `fastapi.HTTPException`: an HTTP error outcome, carrying the status
code and the `detail` string that FastAPI serialises into the body. -/
structure HTTPException where
  status_code : Nat
  detail : String
  deriving DecidableEq, Repr

/-- Payload of a JSON Web Token as used by this service: an optional
`"sub"` (subject) claim and the `"exp"` (expiration) claim, a Unix
timestamp in whole seconds. -/
structure JwtPayload where
  sub : Option String
  exp : Nat
  deriving DecidableEq, Repr

/-- Abstract model of a token string: either a well-formed JWT carrying
a payload and signed with some key, or a malformed/truncated string that
no decode accepts. -/
inductive TokenStr where
  | signed (payload : JwtPayload) (key : String)
  | malformed (raw : String)
  deriving DecidableEq, Repr

/-- The `jwt.PyJWTError` subclasses distinguished by PyJWT's decode. -/
inductive JwtError where
  | invalidSignature
  | decodeError
  | expiredSignature
  deriving DecidableEq, Repr

/-- Model of `jwt.encode(payload, key, algorithm)`: produces a token
signed with `key` (the algorithm is fixed, process-wide configuration). -/
def jwtEncode (payload : JwtPayload) (key : String) : TokenStr :=
  TokenStr.signed payload key

/-- Model of `jwt.decode(token, key, algorithms)`: fails on a malformed
token, fails when the signature was made with a different key, and
raises `ExpiredSignatureError` when `exp <= now` (PyJWT `_validate_exp`
rejects exactly when `exp <= now - leeway` with zero leeway). -/
def jwtDecode (token : TokenStr) (key : String) (now : Nat) :
    Except JwtError JwtPayload :=
  match token with
  | TokenStr.malformed _ => Except.error JwtError.decodeError
  | TokenStr.signed payload k =>
      if k ≠ key then Except.error JwtError.invalidSignature
      else if payload.exp ≤ now then Except.error JwtError.expiredSignature
      else Except.ok payload

/-- `ACCESS_TOKEN_EXPIRE_MINUTES` from `app/settings.py` (default 60). -/
def ACCESS_TOKEN_EXPIRE_MINUTES : Nat := 60

/-- `create_access_token` from `app/main.py`: copies the data (the
service only ever passes `{"sub": email}`, modelled as the optional
subject), sets `exp := now + expire_delta` (or the configured default
lifetime when no delta is given) and signs with the secret key.
`secret_key` is the process-wide `SECRET_KEY` configuration, passed
explicitly; durations are in seconds. -/
def create_access_token (secret_key : String) (data : Option String)
    (expire_delta : Option Nat) (now : Nat) : TokenStr :=
  let expire : Nat :=
    match expire_delta with
    | some d => now + d
    | none => now + ACCESS_TOKEN_EXPIRE_MINUTES * 60
  jwtEncode { sub := data, exp := expire } secret_key

/-- `get_current_user` from `app/main.py`: decodes the bearer token with
the configured key; any `PyJWTError` becomes
`HTTPException(401, "Invalid Credentials")`; a decoded payload whose
`"sub"` claim is absent becomes `HTTPException(401, "Invalid credentials")`
(raised inside the `try` but not caught, since `HTTPException` is not a
`PyJWTError`); otherwise the subject email is returned. -/
def get_current_user (secret_key : String) (token : TokenStr) (now : Nat) :
    Except HTTPException String :=
  match jwtDecode token secret_key now with
  | Except.error _ =>
      Except.error { status_code := 401, detail := "Invalid Credentials" }
  | Except.ok payload =>
      match payload.sub with
      | none =>
          Except.error { status_code := 401, detail := "Invalid credentials" }
      | some email => Except.ok email

/-- The fixed prefix of a bcrypt hash string (scheme and cost). -/
def bcryptPrefix : String := "$2b$12$"

/-- Abstract model of `pwd_context.hash` (passlib bcrypt), used by
`hash_password` in `app/main.py`.  The salt is the random 22-character
value bcrypt draws per call, made an explicit argument; the digest is
modelled as an injective function of the salt and the password
(collisions have negligible probability), so the output determines and
is determined by the pair.  The output embeds the salt after the fixed
prefix, as real bcrypt output does. -/
def hash_password (password : String) (salt : String) : String :=
  bcryptPrefix ++ salt ++ "$" ++ password

/-- The salt embedded in a bcrypt hash string: the 22 characters after
the 7-character `$2b$12$` prefix. -/
def bcryptSalt (hashed : String) : String :=
  { data := (hashed.data.drop 7).take 22 }

/-- Abstract model of `pwd_context.verify`, used by `verify_password` in
`app/main.py`: re-hash the plaintext with the salt and parameters
embedded in the stored hash and compare. -/
def verify_password (plainText : String) (hashedPassword : String) : Bool :=
  hashedPassword == hash_password plainText (bcryptSalt hashedPassword)

/-- Modelled from the spec: `app/models/user_model.py` is not among the
sources.  `User` is the persisted user record of the User Directory; the
field list follows spec section 6 (`POST /register_user` body) together
with the integer primary key `user_id` that `delete_user` looks up via
`session.get(User, user_id)`.  `user_password` holds the bcrypt hash. -/
structure User where
  user_id : Nat
  user_name : String
  user_email : String
  user_password : String
  user_address : String
  user_country : String
  phone_number : String
  deriving DecidableEq, Repr

/-- Modelled from the spec: the `UserModel` registration request body,
with the fields of spec section 6 (`POST /register_user`);
`user_password` is the plaintext password. -/
structure UserModel where
  user_name : String
  user_email : String
  user_password : String
  user_address : String
  user_country : String
  phone_number : String
  deriving DecidableEq, Repr

/-- Modelled from the spec: the `Token` response body of `POST /login`,
`{access_token, token_type}`. -/
structure Token where
  access_token : TokenStr
  token_type : String
  deriving DecidableEq, Repr

/-- Modelled from the spec: the `UserUpdateModel` body of
`PATCH /update_profile` — "partial update of mutable fields".  Each
mutable profile field is optional; `none` models a field left unset in
the request body (`model_dump(exclude_unset=True)` omits it). -/
structure UserUpdateModel where
  user_name : Option String
  user_address : Option String
  user_country : Option String
  phone_number : Option String
  deriving DecidableEq, Repr

/-- `session.exec(select(User).where(User.user_email == email)).first()`:
the first record in the store with the given email, if any. -/
def findUserByEmail (store : List User) (email : String) : Option User :=
  store.find? (fun u => u.user_email == email)

/-- `session.get(User, user_id)`: lookup by primary key. -/
def findUserById (store : List User) (user_id : Nat) : Option User :=
  store.find? (fun u => u.user_id == user_id)

/-- `register_user` from `app/main.py`: 409 Conflict when a record with
the email already exists (store unchanged); otherwise inserts a record
whose `user_password` is the bcrypt hash of the submitted plaintext and
returns it.  `salt` is the random salt bcrypt draws for this call and
`fresh_id` the primary key the database assigns on insert. -/
def register_user (store : List User) (new_user : UserModel) (salt : String)
    (fresh_id : Nat) : Except HTTPException User × List User :=
  match findUserByEmail store new_user.user_email with
  | some _ =>
      (Except.error
        { status_code := 409
          detail := "A user with this email already exists. Please try registering with a different email address." },
       store)
  | none =>
      let user : User :=
        { user_id := fresh_id
          user_name := new_user.user_name
          user_email := new_user.user_email
          user_password := hash_password new_user.user_password salt
          user_address := new_user.user_address
          user_country := new_user.user_country
          phone_number := new_user.phone_number }
      (Except.ok user, store ++ [user])

/-- `login_for_access_token` from `app/main.py`: looks the user up by
email; when the user is absent or the password does not verify, answers
401 with detail `"Invalid email or password"` (one branch covers both,
`if not user or not verify_password(...)`); otherwise issues a token for
`sub = user.user_email` with the configured lifetime. -/
def login_for_access_token (secret_key : String) (store : List User)
    (username password : String) (now : Nat) : Except HTTPException Token :=
  match findUserByEmail store username with
  | none =>
      Except.error { status_code := 401, detail := "Invalid email or password" }
  | some user =>
      if verify_password password user.user_password then
        Except.ok
          { access_token :=
              create_access_token secret_key (some user.user_email)
                (some (ACCESS_TOKEN_EXPIRE_MINUTES * 60)) now
            token_type := "bearer" }
      else
        Except.error { status_code := 401, detail := "Invalid email or password" }

/-- `read_auth_user_profile` (`GET /user/get_profile`) from
`app/main.py`: resolves the bearer token via `get_current_user`, then
looks the subject up in the store; 404 `"User not found"` when absent. -/
def read_auth_user_profile (secret_key : String) (token : TokenStr)
    (now : Nat) (store : List User) : Except HTTPException User :=
  match get_current_user secret_key token now with
  | Except.error e => Except.error e
  | Except.ok email =>
      match findUserByEmail store email with
      | none => Except.error { status_code := 404, detail := "User not found" }
      | some user => Except.ok user

/-- The field-wise effect of the `setattr` loop in
`update_auth_user_profile`: fields present in the request body overwrite
the record's fields, unset fields leave them unchanged. -/
def applyUserUpdate (u : User) (upd : UserUpdateModel) : User :=
  { u with
    user_name := upd.user_name.getD u.user_name
    user_address := upd.user_address.getD u.user_address
    user_country := upd.user_country.getD u.user_country
    phone_number := upd.phone_number.getD u.phone_number }

/-- Mutating the first record with the given email (the ORM object
returned by `.first()`) and committing: every other record is kept. -/
def updateFirstByEmail (store : List User) (email : String)
    (upd : UserUpdateModel) : List User :=
  match store with
  | [] => []
  | u :: rest =>
      if u.user_email == email then applyUserUpdate u upd :: rest
      else u :: updateFirstByEmail rest email upd

/-- `update_auth_user_profile` (`PATCH /update_profile`) from
`app/main.py`: resolves the token, 404 `"Not Found"` when the subject
has no record (store unchanged), otherwise sets exactly the explicitly
provided fields on that record, commits, and returns the success
message. -/
def update_auth_user_profile (secret_key : String) (token : TokenStr)
    (now : Nat) (store : List User) (profile_data : UserUpdateModel) :
    Except HTTPException String × List User :=
  match get_current_user secret_key token now with
  | Except.error e => (Except.error e, store)
  | Except.ok email =>
      match findUserByEmail store email with
      | none =>
          (Except.error { status_code := 404, detail := "Not Found" }, store)
      | some _ =>
          (Except.ok "Profile updated successfully",
           updateFirstByEmail store email profile_data)

/-- `get_user_from_db` from `app/main.py`: selects all users; when the
list is empty (`if not user_list`) raises 404 `"Not Found"`, otherwise
returns the list. -/
def get_user_from_db (store : List User) : Except HTTPException (List User) :=
  if store = [] then Except.error { status_code := 404, detail := "Not Found" }
  else Except.ok store

/-- `get_user` (`GET /api/get_users`) from `app/main.py`: returns what
`get_user_from_db` produces. -/
def get_user (store : List User) : Except HTTPException (List User) :=
  get_user_from_db store

/-- `delete_user` (`DELETE /users/{user_id}`) from `app/main.py`:
looks the record up by primary key, 404 `"User not found"` when absent,
otherwise deletes that record and returns it. -/
def delete_user (store : List User) (user_id : Nat) :
    Except HTTPException User × List User :=
  match findUserById store user_id with
  | none =>
      (Except.error { status_code := 404, detail := "User not found" }, store)
  | some db_user =>
      (Except.ok db_user, store.eraseP (fun u => u.user_id == user_id))

/-- Modelled from the spec: `app/models/user_model.py` is not among the
sources, so the exact field set FastAPI serialises for `response_model`
is modelled from the spec, which states the created record is returned
with the "password hash excluded" and the profile is returned with "no
password field": the serialised body carries every `User` field except
`user_password`. -/
structure UserPublic where
  user_id : Nat
  user_name : String
  user_email : String
  user_address : String
  user_country : String
  phone_number : String
  deriving DecidableEq, Repr

/-- Modelled from the spec: FastAPI serialisation of a `User` record
into the HTTP response body (see `UserPublic`). -/
def serializeUser (u : User) : UserPublic :=
  { user_id := u.user_id
    user_name := u.user_name
    user_email := u.user_email
    user_address := u.user_address
    user_country := u.user_country
    phone_number := u.phone_number }

/-- A 22-character salt, as bcrypt draws per hashing call. -/
def sampleSalt : String := "abcdefghijklmnopqrstuv"

/-- A second, distinct 22-character salt. -/
def sampleSalt2 : String := "ABCDEFGHIJKLMNOPQRSTUV"

/-- A concrete stored user record, with a hashed password. -/
def sampleUser : User :=
  { user_id := 1
    user_name := "Alice"
    user_email := "a@x.com"
    user_password := hash_password "pw123" sampleSalt
    user_address := "1 Main St"
    user_country := "PK"
    phone_number := "0300" }

/-- A concrete registration request. -/
def sampleNewUser : UserModel :=
  { user_name := "Alice"
    user_email := "a@x.com"
    user_password := "pw123"
    user_address := "1 Main St"
    user_country := "PK"
    phone_number := "0300" }

/-- A registration request with a fresh email. -/
def sampleNewUser2 : UserModel :=
  { user_name := "Bob"
    user_email := "b@x.com"
    user_password := "pw456"
    user_address := "2 Main St"
    user_country := "PK"
    phone_number := "0301" }

theorem data_hash_password (p s : String) :
    (hash_password p s).data =
      bcryptPrefix.data ++ (s.data ++ ('$' :: p.data)) := by
  simp [hash_password, String.data_append]

theorem bcryptSalt_hash_password (p s : String) (hs : s.data.length = 22) :
    bcryptSalt (hash_password p s) = s := by
  have h7 : bcryptPrefix.data.length = 7 := by decide
  have hdrop : (hash_password p s).data.drop 7 = s.data ++ ('$' :: p.data) := by
    rw [data_hash_password, ← h7, List.drop_left]
  have htake : ((hash_password p s).data.drop 7).take 22 = s.data := by
    rw [hdrop, ← hs, List.take_left]
  cases s with
  | mk d => simp [bcryptSalt, htake]

theorem verify_hash_password (p s : String) (hs : s.data.length = 22) :
    verify_password p (hash_password p s) = true := by
  rw [verify_password, bcryptSalt_hash_password p s hs]
  exact beq_self_eq_true _

theorem hash_password_salt_injective (p s1 s2 : String)
    (h : hash_password p s1 = hash_password p s2) : s1 = s2 := by
  have hd : (hash_password p s1).data = (hash_password p s2).data :=
    congrArg String.data h
  rw [data_hash_password, data_hash_password] at hd
  have h1 := List.append_cancel_left hd
  have h2 := List.append_cancel_right h1
  exact String.ext h2

theorem hash_password_ne_plaintext (p s : String) :
    hash_password p s ≠ p := by
  intro h
  have hd : (hash_password p s).data.length = p.data.length :=
    congrArg (fun t => t.data.length) h
  rw [data_hash_password] at hd
  simp [List.length_append] at hd
  omega

theorem findUserByEmail_append_of_not_mem (pre rest : List User) (s : String)
    (h : ∀ v ∈ pre, v.user_email ≠ s) :
    findUserByEmail (pre ++ rest) s = findUserByEmail rest s := by
  induction pre with
  | nil => rfl
  | cons a l ih =>
      have ha : (a.user_email == s) = false := by
        simpa using h a (by simp)
      simp only [findUserByEmail, List.cons_append, List.find?, ha]
      exact ih fun v hv => h v (by simp [hv])

theorem updateFirstByEmail_append_of_not_mem (pre rest : List User)
    (s : String) (upd : UserUpdateModel)
    (h : ∀ v ∈ pre, v.user_email ≠ s) :
    updateFirstByEmail (pre ++ rest) s upd =
      pre ++ updateFirstByEmail rest s upd := by
  induction pre with
  | nil => rfl
  | cons a l ih =>
      have ha : (a.user_email == s) = false := by
        simpa using h a (by simp)
      simp only [updateFirstByEmail, List.cons_append, ha, if_false,
        Bool.false_eq_true, List.append_eq]
      exact congrArg (a :: ·) (ih fun v hv => h v (by simp [hv]))

/-- C1: a token produced by `create_access_token` with data
`{"sub": s}` and lifetime `L > 0` at time `t0` is accepted by
`get_current_user` (returning `s`) at every time `t` in `[t0, t0+L)`,
and rejected with a 401 unauthorized outcome at every `t ≥ t0 + L`. -/
theorem token_lifetime (secret_key s : String) (L t0 t : Nat) (_hL : 0 < L) :
    (t0 ≤ t → t < t0 + L →
      get_current_user secret_key
        (create_access_token secret_key (some s) (some L) t0) t =
          Except.ok s) ∧
    (t0 + L ≤ t →
      get_current_user secret_key
        (create_access_token secret_key (some s) (some L) t0) t =
          Except.error { status_code := 401, detail := "Invalid Credentials" }) := by
  constructor
  · intro h1 h2
    have hexp : ¬ (t0 + L ≤ t) := Nat.not_le.mpr h2
    simp [get_current_user, create_access_token, jwtEncode, jwtDecode, hexp]
  · intro h
    simp [get_current_user, create_access_token, jwtEncode, jwtDecode, h]

theorem token_lifetime_witness :
    (get_current_user "K" (create_access_token "K" (some "a@x.com") (some 10) 100) 105 =
      Except.ok "a@x.com") ∧
    (get_current_user "K" (create_access_token "K" (some "a@x.com") (some 10) 100) 110 =
      Except.error { status_code := 401, detail := "Invalid Credentials" }) :=
  ⟨(token_lifetime "K" "a@x.com" 10 100 105 (by decide)).1 (by decide) (by decide),
   (token_lifetime "K" "a@x.com" 10 100 110 (by decide)).2 (by decide)⟩

/-- C2: for every plaintext `p`, a hash produced by `hash_password`
verifies against `p`; and two calls of `hash_password` on the same `p`
that draw distinct (22-character) random salts return unequal hash
strings, each of which still verifies against `p`. -/
theorem hash_password_salted_and_verifies (p s1 s2 : String)
    (h1 : s1.data.length = 22) (h2 : s2.data.length = 22) (hne : s1 ≠ s2) :
    verify_password p (hash_password p s1) = true ∧
    verify_password p (hash_password p s2) = true ∧
    hash_password p s1 ≠ hash_password p s2 :=
  ⟨verify_hash_password p s1 h1, verify_hash_password p s2 h2,
   fun h => hne (hash_password_salt_injective p s1 s2 h)⟩

theorem hash_password_salted_and_verifies_witness :
    verify_password "pw123" (hash_password "pw123" sampleSalt) = true ∧
    verify_password "pw123" (hash_password "pw123" sampleSalt2) = true ∧
    hash_password "pw123" sampleSalt ≠ hash_password "pw123" sampleSalt2 :=
  hash_password_salted_and_verifies "pw123" sampleSalt sampleSalt2
    (by decide) (by decide) (by decide)

/-- C3: when the registration email already has a record,
`register_user` answers 409 Conflict and leaves the store unchanged (so
no second record with that email is created); when the email is absent,
it succeeds and the stored record's password field is the bcrypt hash of
the submitted plaintext — never the plaintext itself. -/
theorem register_user_conflict_or_hashes (store : List User)
    (new_user : UserModel) (salt : String) (fresh_id : Nat) :
    (∀ u : User, findUserByEmail store new_user.user_email = some u →
      register_user store new_user salt fresh_id =
        (Except.error
          { status_code := 409
            detail := "A user with this email already exists. Please try registering with a different email address." },
         store)) ∧
    (findUserByEmail store new_user.user_email = none →
      ∃ user : User,
        register_user store new_user salt fresh_id =
          (Except.ok user, store ++ [user]) ∧
        user.user_email = new_user.user_email ∧
        user.user_password = hash_password new_user.user_password salt ∧
        user.user_password ≠ new_user.user_password) := by
  constructor
  · intro u hu
    simp [register_user, hu]
  · intro h
    unfold register_user
    rw [h]
    exact ⟨_, rfl, rfl, rfl, hash_password_ne_plaintext _ _⟩

theorem register_user_conflict_or_hashes_witness :
    (register_user [sampleUser] sampleNewUser sampleSalt2 2 =
      (Except.error
        { status_code := 409
          detail := "A user with this email already exists. Please try registering with a different email address." },
       [sampleUser])) ∧
    (∃ user : User,
      register_user [] sampleNewUser sampleSalt2 1 =
        (Except.ok user, [] ++ [user]) ∧
      user.user_email = sampleNewUser.user_email ∧
      user.user_password = hash_password sampleNewUser.user_password sampleSalt2 ∧
      user.user_password ≠ sampleNewUser.user_password) :=
  ⟨(register_user_conflict_or_hashes [sampleUser] sampleNewUser sampleSalt2 2).1
      sampleUser (by rfl),
   (register_user_conflict_or_hashes [] sampleNewUser sampleSalt2 1).2 (by rfl)⟩

/-- C4: login with an email that has a record but a password that does
not verify produces exactly the same external response (status code 401
and detail body) as login with an email that has no record; neither
response reveals which check failed. -/
theorem login_error_indistinguishable (secret_key : String)
    (store : List User) (e1 pw1 e2 pw2 : String) (n1 n2 : Nat) (u : User)
    (hfind : findUserByEmail store e1 = some u)
    (hbad : verify_password pw1 u.user_password = false)
    (habs : findUserByEmail store e2 = none) :
    login_for_access_token secret_key store e1 pw1 n1 =
      Except.error { status_code := 401, detail := "Invalid email or password" } ∧
    login_for_access_token secret_key store e2 pw2 n2 =
      Except.error { status_code := 401, detail := "Invalid email or password" } ∧
    login_for_access_token secret_key store e1 pw1 n1 =
      login_for_access_token secret_key store e2 pw2 n2 := by
  have a1 : login_for_access_token secret_key store e1 pw1 n1 =
      Except.error { status_code := 401, detail := "Invalid email or password" } := by
    simp [login_for_access_token, hfind, hbad]
  have a2 : login_for_access_token secret_key store e2 pw2 n2 =
      Except.error { status_code := 401, detail := "Invalid email or password" } := by
    simp [login_for_access_token, habs]
  exact ⟨a1, a2, a1.trans a2.symm⟩

theorem login_error_indistinguishable_witness :
    login_for_access_token "K" [sampleUser] "a@x.com" "wrong" 0 =
      Except.error { status_code := 401, detail := "Invalid email or password" } ∧
    login_for_access_token "K" [sampleUser] "b@x.com" "pw123" 0 =
      Except.error { status_code := 401, detail := "Invalid email or password" } ∧
    login_for_access_token "K" [sampleUser] "a@x.com" "wrong" 0 =
      login_for_access_token "K" [sampleUser] "b@x.com" "pw123" 0 :=
  login_error_indistinguishable "K" [sampleUser] "a@x.com" "wrong" "b@x.com"
    "pw123" 0 0 sampleUser (by rfl) (by decide) (by rfl)

/-- C5: a token signed with key `k1` is rejected by `get_current_user`
configured with any key `k2 ≠ k1`, at every verification time, whatever
the payload: the outcome is the 401 unauthorized error, never a
subject. -/
theorem wrong_key_rejected (k1 k2 : String) (data : Option String)
    (delta : Option Nat) (t0 t : Nat) (hk : k1 ≠ k2) :
    get_current_user k2 (create_access_token k1 data delta t0) t =
      Except.error { status_code := 401, detail := "Invalid Credentials" } := by
  simp [get_current_user, create_access_token, jwtEncode, jwtDecode, hk]

theorem wrong_key_rejected_witness :
    get_current_user "K2" (create_access_token "K1" (some "a@x.com") (some 600) 0) 1 =
      Except.error { status_code := 401, detail := "Invalid Credentials" } :=
  wrong_key_rejected "K1" "K2" (some "a@x.com") (some 600) 0 1 (by decide)

/-- C6: the claim that every verification failure yields one identical
unauthorized outcome fails on the code: a correctly signed, unexpired
token whose payload lacks the `"sub"` claim is answered with detail
`"Invalid credentials"`, while a malformed token (like every
`PyJWTError` case) is answered with detail `"Invalid Credentials"` — the
same 401 status but two distinguishable bodies. -/
theorem unauthorized_details_differ :
    get_current_user "K" (TokenStr.signed { sub := none, exp := 100 } "K") 0 =
      Except.error { status_code := 401, detail := "Invalid credentials" } ∧
    get_current_user "K" (TokenStr.malformed "xx") 0 =
      Except.error { status_code := 401, detail := "Invalid Credentials" } ∧
    ({ status_code := 401, detail := "Invalid credentials" } : HTTPException) ≠
      { status_code := 401, detail := "Invalid Credentials" } :=
  ⟨by simp [get_current_user, jwtDecode],
   by simp [get_current_user, jwtDecode],
   by decide⟩

/-- C7: a still-valid token (one `get_current_user` resolves to subject
`s`) whose subject has no record in the store — for instance after the
account was deleted — makes `read_auth_user_profile` answer 404
`"User not found"`, never a resolved user. -/
theorem stale_token_rejected (secret_key s : String) (token : TokenStr)
    (now : Nat) (store : List User)
    (hok : get_current_user secret_key token now = Except.ok s)
    (habs : findUserByEmail store s = none) :
    read_auth_user_profile secret_key token now store =
      Except.error { status_code := 404, detail := "User not found" } ∧
    ∀ u : User, read_auth_user_profile secret_key token now store ≠
      Except.ok u := by
  have h : read_auth_user_profile secret_key token now store =
      Except.error { status_code := 404, detail := "User not found" } := by
    simp [read_auth_user_profile, hok, habs]
  refine ⟨h, fun u hu => ?_⟩
  rw [h] at hu
  exact Except.noConfusion hu

theorem stale_token_rejected_witness :
    read_auth_user_profile "K"
        (create_access_token "K" (some "a@x.com") (some 600) 0) 10
        (delete_user [sampleUser] 1).2 =
      Except.error { status_code := 404, detail := "User not found" } :=
  (stale_token_rejected "K" "a@x.com"
    (create_access_token "K" (some "a@x.com") (some 600) 0) 10
    (delete_user [sampleUser] 1).2 (by rfl) (by rfl)).1

/-- C8: on successful registration the serialised response body is the
created record without its password field (the serialisation is
insensitive to `user_password`), and the profile returned by
`GET /user/get_profile` for an authenticated subject is likewise
serialised without any password field. -/
theorem responses_exclude_password (store : List User)
    (new_user : UserModel) (salt : String) (fresh_id : Nat)
    (secret_key s : String) (token : TokenStr) (now : Nat) (u : User)
    (hreg : findUserByEmail store new_user.user_email = none)
    (hok : get_current_user secret_key token now = Except.ok s)
    (hfind : findUserByEmail store s = some u) :
    (∃ user : User,
      (register_user store new_user salt fresh_id).1 = Except.ok user ∧
      ∀ pw : String,
        serializeUser { user with user_password := pw } = serializeUser user) ∧
    read_auth_user_profile secret_key token now store = Except.ok u ∧
    (∀ pw : String,
      serializeUser { u with user_password := pw } = serializeUser u) := by
  refine
    ⟨⟨{ user_id := fresh_id
        user_name := new_user.user_name
        user_email := new_user.user_email
        user_password := hash_password new_user.user_password salt
        user_address := new_user.user_address
        user_country := new_user.user_country
        phone_number := new_user.phone_number }, ?_, fun pw => rfl⟩,
     ?_, fun pw => rfl⟩
  · simp [register_user, hreg]
  · simp [read_auth_user_profile, hok, hfind]

theorem responses_exclude_password_witness :
    (∃ user : User,
      (register_user [sampleUser] sampleNewUser2 sampleSalt2 2).1 =
        Except.ok user ∧
      ∀ pw : String,
        serializeUser { user with user_password := pw } = serializeUser user) ∧
    read_auth_user_profile "K"
        (create_access_token "K" (some "a@x.com") (some 600) 0) 10
        [sampleUser] =
      Except.ok sampleUser ∧
    (∀ pw : String,
      serializeUser { sampleUser with user_password := pw } =
        serializeUser sampleUser) :=
  responses_exclude_password [sampleUser] sampleNewUser2 sampleSalt2 2
    "K" "a@x.com" (create_access_token "K" (some "a@x.com") (some 600) 0) 10
    sampleUser (by rfl) (by rfl) (by rfl)

/-- C9: for an authenticated subject with a record,
`update_auth_user_profile` rewrites exactly the explicitly provided
fields of that subject's (first matching) record — identity, email and
password untouched, absent fields untouched — and leaves every other
record in place; for a subject without a record it answers 404
`"Not Found"` and returns the store unchanged. -/
theorem update_profile_frame (secret_key s : String) (token : TokenStr)
    (now : Nat) (upd : UserUpdateModel) :
    (∀ store : List User, get_current_user secret_key token now = Except.ok s →
      findUserByEmail store s = none →
      update_auth_user_profile secret_key token now store upd =
        (Except.error { status_code := 404, detail := "Not Found" }, store)) ∧
    (∀ (pre : List User) (u : User) (post : List User),
      get_current_user secret_key token now = Except.ok s →
      (∀ v ∈ pre, v.user_email ≠ s) → u.user_email = s →
      update_auth_user_profile secret_key token now (pre ++ u :: post) upd =
        (Except.ok "Profile updated successfully",
         pre ++ applyUserUpdate u upd :: post)) ∧
    (∀ u : User,
      (applyUserUpdate u upd).user_id = u.user_id ∧
      (applyUserUpdate u upd).user_email = u.user_email ∧
      (applyUserUpdate u upd).user_password = u.user_password ∧
      (applyUserUpdate u upd).user_name = upd.user_name.getD u.user_name ∧
      (applyUserUpdate u upd).user_address = upd.user_address.getD u.user_address ∧
      (applyUserUpdate u upd).user_country = upd.user_country.getD u.user_country ∧
      (applyUserUpdate u upd).phone_number = upd.phone_number.getD u.phone_number) := by
  refine ⟨?_, ?_, fun u => ⟨rfl, rfl, rfl, rfl, rfl, rfl, rfl⟩⟩
  · intro store hok habs
    simp [update_auth_user_profile, hok, habs]
  · intro pre u post hok hpre hu
    have hfind : findUserByEmail (pre ++ u :: post) s = some u := by
      rw [findUserByEmail_append_of_not_mem pre _ s hpre]
      simp [findUserByEmail, List.find?, hu]
    have hupd : updateFirstByEmail (pre ++ u :: post) s upd =
        pre ++ applyUserUpdate u upd :: post := by
      rw [updateFirstByEmail_append_of_not_mem pre _ s upd hpre]
      simp [updateFirstByEmail, hu]
    simp [update_auth_user_profile, hok, hfind, hupd]

theorem update_profile_frame_witness :
    update_auth_user_profile "K"
        (create_access_token "K" (some "a@x.com") (some 600) 0) 10
        ([] ++ sampleUser :: [])
        { user_name := some "Alicia", user_address := none,
          user_country := none, phone_number := none } =
      (Except.ok "Profile updated successfully",
       [] ++ applyUserUpdate sampleUser
         { user_name := some "Alicia", user_address := none,
           user_country := none, phone_number := none } :: []) :=
  (update_profile_frame "K" "a@x.com"
      (create_access_token "K" (some "a@x.com") (some 600) 0) 10
      { user_name := some "Alicia", user_address := none,
        user_country := none, phone_number := none }).2.1
    [] sampleUser [] (by rfl) (by simp) (by rfl)

/-- C10: `GET /api/get_users` returns the full list of records when the
store is nonempty, and answers 404 `"Not Found"` — not an empty list —
when the users table is empty. -/
theorem get_users_full_or_404 (store : List User) :
    (store ≠ [] → get_user store = Except.ok store) ∧
    (store = [] → get_user store =
      Except.error { status_code := 404, detail := "Not Found" }) := by
  constructor
  · intro h
    simp [get_user, get_user_from_db, h]
  · intro h
    simp [get_user, get_user_from_db, h]

theorem get_users_full_or_404_witness :
    get_user [sampleUser] = Except.ok [sampleUser] ∧
    get_user [] = Except.error { status_code := 404, detail := "Not Found" } :=
  ⟨(get_users_full_or_404 [sampleUser]).1 (by simp),
   (get_users_full_or_404 []).2 rfl⟩

end UserService
